import Mathlib

/-!
# CarTag BLE firmware: connection lifecycle and periodic report scheduler

Shallow embedding of `src/cartag/src/main.cpp`. The firmware keeps five
global variables (`deviceConnected`, `oldDeviceConnected`, `batteryLevel`,
`updateCount`, `lastUpdateTime`), three BLE callbacks (`onConnect`,
`onDisconnect`, `onWrite`) and a polling `loop` that handles connection
edges, restarts advertising after a disconnect, and while connected emits
a battery report every `UPDATE_INTERVAL` milliseconds.

C++ `int` is modelled as `Int`; `unsigned long` (32-bit on the ESP32
target) as `Nat` reduced modulo `2 ^ 32`, with the wrapping subtraction
`currentTime - lastUpdateTime` made explicit in `ulSub`. Calls into the
external BLE stack and serial logging are recorded as a list of `Action`
values produced by each step.
-/

set_option autoImplicit false

namespace CarTag

/-- Source constant `const unsigned long UPDATE_INTERVAL = 2000;` (main.cpp line 28). -/
def UPDATE_INTERVAL : Nat := 2000

/-- Modulus of the 32-bit `unsigned long` used by `millis()` on the target. -/
def ULONG_MOD : Nat := 2 ^ 32

/-- Wrapping 32-bit unsigned subtraction, as performed by
`currentTime - lastUpdateTime` in C (main.cpp line 134). -/
def ulSub (a b : Nat) : Nat := (a % ULONG_MOD + (ULONG_MOD - b % ULONG_MOD)) % ULONG_MOD

/-- The five global mutable variables of main.cpp (lines 21-27). -/
structure FirmwareState where
  deviceConnected : Bool
  oldDeviceConnected : Bool
  batteryLevel : Int
  updateCount : Int
  lastUpdateTime : Nat
  deriving Repr, DecidableEq

/-- Global initial values: `deviceConnected = false`, `oldDeviceConnected = false`,
`batteryLevel = 100`, `updateCount = 0`, `lastUpdateTime = 0` (main.cpp lines 21-27). -/
def initState : FirmwareState :=
  { deviceConnected := false, oldDeviceConnected := false,
    batteryLevel := 100, updateCount := 0, lastUpdateTime := 0 }

/-- Observable calls the firmware makes into the BLE stack and serial port. -/
inductive Action where
  | delayMs : Nat → Action
  | restartAdvertising : Action
  | updateConnParams : Nat → Nat → Nat → Nat → Action
  | setValue : String → Action
  | notify : Action
  | serialPrint : String → Action
  deriving Repr, DecidableEq

/-- Callback `MyServerCallbacks::onConnect` (main.cpp lines 32-39): sets
`deviceConnected = true`, logs, and requests connection-parameter
renegotiation `updateConnParams(..., 24, 48, 0, 400)`. -/
def onConnect (s : FirmwareState) : FirmwareState × List Action :=
  ({ s with deviceConnected := true },
   [Action.serialPrint "Device connected", Action.updateConnParams 24 48 0 400])

/-- Callback `MyServerCallbacks::onDisconnect` (main.cpp lines 41-44): sets
`deviceConnected = false` and logs. -/
def onDisconnect (s : FirmwareState) : FirmwareState × List Action :=
  ({ s with deviceConnected := false }, [Action.serialPrint "Device disconnected"])

/-- Callback `MyCallbacks::onWrite` (main.cpp lines 49-62): reads the written value;
if its length is positive it echoes it to serial; no state is modified. -/
def onWrite (s : FirmwareState) (value : String) : FirmwareState × List Action :=
  (s, if 0 < value.length
      then [Action.serialPrint ("Received value: " ++ value)]
      else [])

/-- First block of `loop` (main.cpp lines 115-118): on a connect edge
(`deviceConnected && !oldDeviceConnected`) set `oldDeviceConnected = deviceConnected`. -/
def handleConnectEdge (s : FirmwareState) : FirmwareState :=
  if s.deviceConnected && !s.oldDeviceConnected then
    { s with oldDeviceConnected := s.deviceConnected }
  else s

/-- Second block of `loop` (main.cpp lines 120-126): on a disconnect edge
(`!deviceConnected && oldDeviceConnected`) wait 500 ms, restart advertising,
log, and set `oldDeviceConnected = deviceConnected`. -/
def handleDisconnectEdge (s : FirmwareState) : FirmwareState × List Action :=
  if !s.deviceConnected && s.oldDeviceConnected then
    ({ s with oldDeviceConnected := s.deviceConnected },
     [Action.delayMs 500, Action.restartAdvertising,
      Action.serialPrint "Restarted advertising"])
  else (s, [])

/-- Decay branch of `loop` (main.cpp lines 137-141): if `updateCount >= 3`
and `batteryLevel > 0`, decrement `batteryLevel` and reset `updateCount`. -/
def applyDecay (s : FirmwareState) : FirmwareState :=
  if 3 ≤ s.updateCount ∧ 0 < s.batteryLevel then
    { s with batteryLevel := s.batteryLevel - 1, updateCount := 0 }
  else s

/-- State after an emitted report (main.cpp lines 135-141): record the
current time, bump `updateCount`, then apply the decay rule. -/
def reportedState (s : FirmwareState) (now : Nat) : FirmwareState :=
  applyDecay { s with lastUpdateTime := now % ULONG_MOD,
                      updateCount := s.updateCount + 1 }

/-- Payload `String(batteryLevel) + "%"` (main.cpp line 144). -/
def batteryPayload (s : FirmwareState) : String :=
  toString s.batteryLevel ++ "%"

/-- Third block of `loop` (main.cpp lines 129-150): while connected, if at
least `UPDATE_INTERVAL` ms have elapsed (in wrapping unsigned arithmetic)
since `lastUpdateTime`, record the current time, bump `updateCount`, apply
the decay rule, push the formatted battery string and send a notification. -/
def sendBatteryUpdate (s : FirmwareState) (now : Nat) : FirmwareState × List Action :=
  if s.deviceConnected then
    if UPDATE_INTERVAL ≤ ulSub (now % ULONG_MOD) s.lastUpdateTime then
      (reportedState s now,
       [Action.setValue (batteryPayload (reportedState s now)), Action.notify,
        Action.serialPrint ("Battery level: " ++ batteryPayload (reportedState s now))])
    else (s, [])
  else (s, [])

/-- One iteration of `loop` (main.cpp lines 113-154), given the value `now`
returned by `millis()` at line 131: the three blocks in program order. -/
def loopTick (s : FirmwareState) (now : Nat) : FirmwareState × List Action :=
  let s1 := handleConnectEdge s
  let p2 := handleDisconnectEdge s1
  let p3 := sendBatteryUpdate p2.1 now
  (p3.1, p2.2 ++ p3.2)

/-- External events driving the firmware: a poll-loop iteration at a given
`millis()` reading, or one of the three BLE-stack callbacks. -/
inductive Event where
  | tick : Nat → Event
  | connect : Event
  | disconnect : Event
  | write : String → Event
  deriving Repr, DecidableEq

/-- Dispatch one event against the firmware state. -/
def step (s : FirmwareState) : Event → FirmwareState × List Action
  | Event.tick now => loopTick s now
  | Event.connect => onConnect s
  | Event.disconnect => onDisconnect s
  | Event.write v => onWrite s v

/-- Run a sequence of events, collecting the emitted actions in order. -/
def run (s : FirmwareState) : List Event → FirmwareState × List Action
  | [] => (s, [])
  | e :: es =>
    let p := step s e
    let q := run p.1 es
    (q.1, p.2 ++ q.2)

/-- The battery payloads pushed with `setValue`, in emission order. -/
def emittedValues : List Action → List String
  | [] => []
  | Action.setValue v :: rest => v :: emittedValues rest
  | _ :: rest => emittedValues rest

/-- Number of `notify()` calls in an action trace. -/
def notifyCount : List Action → Nat
  | [] => 0
  | Action.notify :: rest => notifyCount rest + 1
  | _ :: rest => notifyCount rest

/-- Number of `startAdvertising()` restart calls in an action trace. -/
def restartCount : List Action → Nat
  | [] => 0
  | Action.restartAdvertising :: rest => restartCount rest + 1
  | _ :: rest => restartCount rest

/-! ## Basic lemmas about traces and runs -/

theorem emittedValues_append (a b : List Action) :
    emittedValues (a ++ b) = emittedValues a ++ emittedValues b := by
  induction a with
  | nil => rfl
  | cons x xs ih => cases x <;> simp [emittedValues, ih]

theorem notifyCount_append (a b : List Action) :
    notifyCount (a ++ b) = notifyCount a + notifyCount b := by
  induction a with
  | nil => simp [notifyCount]
  | cons x xs ih => cases x <;> (simp [notifyCount, ih]; try omega)

theorem restartCount_append (a b : List Action) :
    restartCount (a ++ b) = restartCount a + restartCount b := by
  induction a with
  | nil => simp [restartCount]
  | cons x xs ih => cases x <;> (simp [restartCount, ih]; try omega)

theorem run_cons (s : FirmwareState) (e : Event) (es : List Event) :
    run s (e :: es) =
      ((run (step s e).1 es).1, (step s e).2 ++ (run (step s e).1 es).2) := rfl

theorem run_fst_append (s : FirmwareState) (es fs : List Event) :
    (run s (es ++ fs)).1 = (run (run s es).1 fs).1 := by
  induction es generalizing s with
  | nil => rfl
  | cons e es ih => simp [run_cons, ih, run]

/-- Poll-loop iterations at times `start, start + 2000, ...` (`n` of them). -/
def tickEvents (start n : Nat) : List Event :=
  (List.range' start n 2000).map Event.tick

theorem tickEvents_append (start m n : Nat) :
    tickEvents start m ++ tickEvents (start + 2000 * m) n = tickEvents start (n + m) := by
  unfold tickEvents
  rw [← List.map_append, List.range'_append]

theorem runTicks_chunk (s t : FirmwareState) (start m n total next : Nat)
    (htotal : total = n + m) (hnext : next = start + 2000 * m)
    (hs : (run s (tickEvents start m)).1 = t) :
    (run s (tickEvents start total)).1 = (run t (tickEvents next n)).1 := by
  subst htotal hnext hs
  rw [← tickEvents_append, run_fst_append]

/-! ## Shape lemmas for one loop iteration -/

theorem handleConnectEdge_batteryLevel (s : FirmwareState) :
    (handleConnectEdge s).batteryLevel = s.batteryLevel := by
  unfold handleConnectEdge; split <;> rfl

theorem handleConnectEdge_updateCount (s : FirmwareState) :
    (handleConnectEdge s).updateCount = s.updateCount := by
  unfold handleConnectEdge; split <;> rfl

theorem handleConnectEdge_lastUpdateTime (s : FirmwareState) :
    (handleConnectEdge s).lastUpdateTime = s.lastUpdateTime := by
  unfold handleConnectEdge; split <;> rfl

theorem handleConnectEdge_deviceConnected (s : FirmwareState) :
    (handleConnectEdge s).deviceConnected = s.deviceConnected := by
  unfold handleConnectEdge; split <;> rfl

theorem handleDisconnectEdge_batteryLevel (s : FirmwareState) :
    (handleDisconnectEdge s).1.batteryLevel = s.batteryLevel := by
  unfold handleDisconnectEdge; split <;> rfl

theorem handleDisconnectEdge_updateCount (s : FirmwareState) :
    (handleDisconnectEdge s).1.updateCount = s.updateCount := by
  unfold handleDisconnectEdge; split <;> rfl

theorem handleDisconnectEdge_lastUpdateTime (s : FirmwareState) :
    (handleDisconnectEdge s).1.lastUpdateTime = s.lastUpdateTime := by
  unfold handleDisconnectEdge; split <;> rfl

theorem handleDisconnectEdge_deviceConnected (s : FirmwareState) :
    (handleDisconnectEdge s).1.deviceConnected = s.deviceConnected := by
  unfold handleDisconnectEdge; split <;> rfl

/-- A tick in the fully disconnected steady state is a pure no-op. -/
theorem loopTick_idle (s : FirmwareState) (now : Nat)
    (hc : s.deviceConnected = false) (ho : s.oldDeviceConnected = false) :
    loopTick s now = (s, []) := by
  simp [loopTick, handleConnectEdge, handleDisconnectEdge, sendBatteryUpdate, hc, ho]

/-! ## The reachability invariant on battery and update counter -/

/-- Invariant tying `batteryLevel` and `updateCount` together: the battery
stays in `[0, 100]`, the counter is non-negative, and as long as the battery
has not been depleted the counter stays below the decay cadence. -/
def GoodState (s : FirmwareState) : Prop :=
  0 ≤ s.batteryLevel ∧ s.batteryLevel ≤ 100 ∧ 0 ≤ s.updateCount ∧
    (0 < s.batteryLevel → s.updateCount ≤ 2)

theorem goodState_initState : GoodState initState := by
  simp [GoodState, initState]

theorem goodState_reportedState (s : FirmwareState) (now : Nat) (h : GoodState s) :
    GoodState (reportedState s now) := by
  obtain ⟨h0, h100, hu, hcap⟩ := h
  unfold reportedState applyDecay
  split <;> simp_all [GoodState] <;> omega

theorem goodState_sendBatteryUpdate (s : FirmwareState) (now : Nat) (h : GoodState s) :
    GoodState (sendBatteryUpdate s now).1 := by
  unfold sendBatteryUpdate
  split
  · split
    · exact goodState_reportedState s now h
    · exact h
  · exact h

theorem goodState_handleConnectEdge (s : FirmwareState) (h : GoodState s) :
    GoodState (handleConnectEdge s) := by
  unfold GoodState at *
  simp [handleConnectEdge_batteryLevel, handleConnectEdge_updateCount]
  exact h

theorem goodState_handleDisconnectEdge (s : FirmwareState) (h : GoodState s) :
    GoodState (handleDisconnectEdge s).1 := by
  unfold GoodState at *
  simp [handleDisconnectEdge_batteryLevel, handleDisconnectEdge_updateCount]
  exact h

theorem goodState_step (s : FirmwareState) (e : Event) (h : GoodState s) :
    GoodState (step s e).1 := by
  cases e with
  | tick now =>
    exact goodState_sendBatteryUpdate _ now
      (goodState_handleDisconnectEdge _ (goodState_handleConnectEdge s h))
  | connect => exact h
  | disconnect => exact h
  | write v => exact h

theorem goodState_run (es : List Event) (s : FirmwareState) (h : GoodState s) :
    GoodState (run s es).1 := by
  induction es generalizing s with
  | nil => exact h
  | cons e es ih => exact ih _ (goodState_step s e h)

/-! ## Battery monotonicity -/

theorem batteryLevel_step_le (s : FirmwareState) (e : Event) :
    (step s e).1.batteryLevel ≤ s.batteryLevel := by
  cases e with
  | tick now =>
    show (sendBatteryUpdate (handleDisconnectEdge (handleConnectEdge s)).1 now).1.batteryLevel ≤ _
    unfold sendBatteryUpdate reportedState applyDecay
    split
    · split
      · split <;>
          simp [handleDisconnectEdge_batteryLevel, handleConnectEdge_batteryLevel]
      · simp [handleDisconnectEdge_batteryLevel, handleConnectEdge_batteryLevel]
    · simp [handleDisconnectEdge_batteryLevel, handleConnectEdge_batteryLevel]
  | connect => exact le_refl _
  | disconnect => exact le_refl _
  | write v => exact le_refl _

theorem batteryLevel_run_le (es : List Event) (s : FirmwareState) :
    (run s es).1.batteryLevel ≤ s.batteryLevel := by
  induction es generalizing s with
  | nil => exact le_refl _
  | cons e es ih => exact le_trans (ih (step s e).1) (batteryLevel_step_le s e)

/-! ## A branch-structured transition relation

The `if` chain of `loop` is presented as an inductive relation with one
constructor per branch; proving that the relation agrees with the `loopTick`
function shows the branch guards are mutually exclusive, which is what makes
the scheduler deterministic. -/

/-- Edge-handling blocks of `loop` (main.cpp lines 115-126) as a relation. -/
inductive EdgeRel : FirmwareState → FirmwareState → List Action → Prop where
  | connectEdge {s : FirmwareState} (hc : s.deviceConnected = true)
      (ho : s.oldDeviceConnected = false) :
      EdgeRel s { s with oldDeviceConnected := s.deviceConnected } []
  | disconnectEdge {s : FirmwareState} (hc : s.deviceConnected = false)
      (ho : s.oldDeviceConnected = true) :
      EdgeRel s { s with oldDeviceConnected := s.deviceConnected }
        [Action.delayMs 500, Action.restartAdvertising,
         Action.serialPrint "Restarted advertising"]
  | steady {s : FirmwareState} (h : s.deviceConnected = s.oldDeviceConnected) :
      EdgeRel s s []

/-- Report block of `loop` (main.cpp lines 129-150) as a relation. -/
inductive ReportRel : FirmwareState → Nat → FirmwareState → List Action → Prop where
  | emit {s : FirmwareState} {now : Nat} (hc : s.deviceConnected = true)
      (h : UPDATE_INTERVAL ≤ ulSub (now % ULONG_MOD) s.lastUpdateTime) :
      ReportRel s now (reportedState s now)
        [Action.setValue (batteryPayload (reportedState s now)), Action.notify,
         Action.serialPrint ("Battery level: " ++ batteryPayload (reportedState s now))]
  | tooSoon {s : FirmwareState} {now : Nat} (hc : s.deviceConnected = true)
      (h : ulSub (now % ULONG_MOD) s.lastUpdateTime < UPDATE_INTERVAL) :
      ReportRel s now s []
  | off {s : FirmwareState} {now : Nat} (hc : s.deviceConnected = false) :
      ReportRel s now s []

/-- One `loop` iteration as a relation: edge handling then the report block. -/
inductive TickRel : FirmwareState → Nat → FirmwareState → List Action → Prop where
  | mk {s s1 s2 : FirmwareState} {now : Nat} {a1 a2 : List Action}
      (he : EdgeRel s s1 a1) (hr : ReportRel s1 now s2 a2) :
      TickRel s now s2 (a1 ++ a2)

/-- One external event as a relation. -/
inductive StepRel : FirmwareState → Event → FirmwareState → List Action → Prop where
  | tick {s s' : FirmwareState} {now : Nat} {a : List Action} :
      TickRel s now s' a → StepRel s (Event.tick now) s' a
  | connect (s : FirmwareState) :
      StepRel s Event.connect (onConnect s).1 (onConnect s).2
  | disconnect (s : FirmwareState) :
      StepRel s Event.disconnect (onDisconnect s).1 (onDisconnect s).2
  | write (s : FirmwareState) (v : String) :
      StepRel s (Event.write v) (onWrite s v).1 (onWrite s v).2

/-- A whole execution as a relation. -/
inductive RunRel : FirmwareState → List Event → FirmwareState → List Action → Prop where
  | nil (s : FirmwareState) : RunRel s [] s []
  | cons {s s1 s2 : FirmwareState} {e : Event} {es : List Event}
      {a1 a2 : List Action} :
      StepRel s e s1 a1 → RunRel s1 es s2 a2 → RunRel s (e :: es) s2 (a1 ++ a2)

theorem edgeRel_eq (s s1 : FirmwareState) (a1 : List Action)
    (h : EdgeRel s s1 a1) :
    handleDisconnectEdge (handleConnectEdge s) = (s1, a1) := by
  cases h with
  | connectEdge hc ho =>
    simp [handleConnectEdge, handleDisconnectEdge, hc, ho]
  | disconnectEdge hc ho =>
    simp [handleConnectEdge, handleDisconnectEdge, hc, ho]
  | steady h =>
    cases hd : s.deviceConnected <;>
      simp [handleConnectEdge, handleDisconnectEdge, hd, h ▸ hd]

theorem reportRel_eq (s s2 : FirmwareState) (now : Nat) (a2 : List Action)
    (h : ReportRel s now s2 a2) :
    sendBatteryUpdate s now = (s2, a2) := by
  cases h with
  | emit hc h => simp [sendBatteryUpdate, hc, h]
  | tooSoon hc h => simp [sendBatteryUpdate, hc, Nat.not_le.mpr h]
  | off hc => simp [sendBatteryUpdate, hc]

theorem tickRel_eq (s s' : FirmwareState) (now : Nat) (a : List Action)
    (h : TickRel s now s' a) :
    loopTick s now = (s', a) := by
  cases h with
  | mk he hr =>
    have h1 := edgeRel_eq _ _ _ he
    have h2 := reportRel_eq _ _ _ _ hr
    simp [loopTick, h1, h2]

theorem stepRel_eq (s s' : FirmwareState) (e : Event) (a : List Action)
    (h : StepRel s e s' a) :
    step s e = (s', a) := by
  cases h with
  | tick ht => exact tickRel_eq _ _ _ _ ht
  | connect => rfl
  | disconnect => rfl
  | write => rfl

theorem runRel_eq (es : List Event) (s s' : FirmwareState) (a : List Action)
    (h : RunRel s es s' a) :
    run s es = (s', a) := by
  induction h with
  | nil s => rfl
  | cons hstep hrun ih =>
    rw [run_cons, stepRel_eq _ _ _ _ hstep]
    simp [ih]

/-- On a connected tick the edge blocks only normalise `oldDeviceConnected`
to `true`; the rest of the iteration is the report block. -/
theorem loopTick_connected (s : FirmwareState) (now : Nat)
    (hc : s.deviceConnected = true) :
    loopTick s now = sendBatteryUpdate { s with oldDeviceConnected := true } now := by
  obtain ⟨c, o, b, u, l⟩ := s
  simp only [FirmwareState.mk.injEq] at hc ⊢
  subst hc
  cases o <;>
    simp [loopTick, handleConnectEdge, handleDisconnectEdge]

/-- On a disconnect-edge tick the iteration restarts advertising after the
settle delay and clears the edge flag; no report is attempted. -/
theorem loopTick_disconnectEdge (s : FirmwareState) (now : Nat)
    (hc : s.deviceConnected = false) (ho : s.oldDeviceConnected = true) :
    loopTick s now = ({ s with oldDeviceConnected := false },
      [Action.delayMs 500, Action.restartAdvertising,
       Action.serialPrint "Restarted advertising"]) := by
  simp [loopTick, handleConnectEdge, handleDisconnectEdge, sendBatteryUpdate, hc, ho]

/-- While the device stays disconnected and no connect callback arrives, no
advertising restart is ever emitted and the flags stay down. -/
theorem run_no_restart (es : List Event) (s : FirmwareState)
    (hc : s.deviceConnected = false) (ho : s.oldDeviceConnected = false)
    (hes : Event.connect ∉ es) :
    restartCount (run s es).2 = 0 := by
  induction es generalizing s with
  | nil => rfl
  | cons e es ih =>
    simp only [List.mem_cons, not_or] at hes
    obtain ⟨hne, hes⟩ := hes
    rw [run_cons, restartCount_append]
    cases e with
    | tick now =>
      rw [show step s (Event.tick now) = loopTick s now from rfl,
        loopTick_idle s now hc ho]
      simpa [restartCount] using ih s hc ho hes
    | connect => exact absurd rfl (fun h => hne h.symm)
    | disconnect =>
      rw [show step s Event.disconnect = onDisconnect s from rfl]
      have := ih (onDisconnect s).1 rfl (by simpa [onDisconnect] using ho) hes
      simpa [onDisconnect, restartCount] using this
    | write v =>
      rw [show step s (Event.write v) = onWrite s v from rfl]
      have := ih (onWrite s v).1 hc ho hes
      unfold onWrite
      split <;> simpa [restartCount] using this

/-! ## The claims -/

/-- The disconnect/reconnect scenario used against the claim that the
interval timer restarts at the reconnect tick: connect, report at 2000 ms,
disconnect at 2600 ms, reconnect. -/
def reconnectEvents : List Event :=
  [Event.connect, Event.tick 2000, Event.disconnect, Event.tick 2600,
   Event.connect]

/-- C1: counterexample. After the run `reconnectEvents` the device has just
reconnected (`deviceConnected = true`, `oldDeviceConnected = false`), yet the
very first poll-loop iteration after reconnection — at `now = 4000`, i.e.
0 ms, not `UPDATE_INTERVAL` ms, after the reconnect tick — already pushes a
battery report and a notification, because `lastUpdateTime` (2000, the last
report before the disconnect) is not reset by `onConnect`. -/
theorem reconnect_tick_reports_immediately :
    (run initState reconnectEvents).1.deviceConnected = true ∧
    (run initState reconnectEvents).1.oldDeviceConnected = false ∧
    (run initState reconnectEvents).1.lastUpdateTime = 2000 ∧
    emittedValues (loopTick (run initState reconnectEvents).1 4000).2 = ["100%"] ∧
    notifyCount (loopTick (run initState reconnectEvents).1 4000).2 = 1 := by
  decide

/-- C1: amended. The interval timer is not restarted at the reconnect tick:
on any connected tick a report is emitted exactly when at least
`UPDATE_INTERVAL` ms (in wrapping 32-bit arithmetic) have elapsed since
`lastUpdateTime`, the time of the last report — so the first report after a
reconnection may come as early as the reconnect tick itself. No missed-tick
accumulation happens: a single iteration emits at most one notification. -/
theorem report_gated_by_lastUpdateTime (s : FirmwareState) (now : Nat)
    (hc : s.deviceConnected = true) :
    (Action.notify ∈ (loopTick s now).2 ↔
      UPDATE_INTERVAL ≤ ulSub (now % ULONG_MOD) s.lastUpdateTime) ∧
    notifyCount (loopTick s now).2 ≤ 1 := by
  rw [loopTick_connected s now hc]
  unfold sendBatteryUpdate
  split
  · split
    · simp_all [notifyCount]
    · simp_all [notifyCount]
  · simp_all

/-- C1: witness for the amended theorem at a concrete reconnected state. -/
theorem report_gated_by_lastUpdateTime_witness :
    ((Action.notify ∈ (loopTick ⟨true, false, 100, 1, 2000⟩ 4000).2 ↔
      UPDATE_INTERVAL ≤ ulSub (4000 % ULONG_MOD)
        (FirmwareState.mk true false 100 1 2000).lastUpdateTime) ∧
     notifyCount (loopTick ⟨true, false, 100, 1, 2000⟩ 4000).2 ≤ 1) :=
  report_gated_by_lastUpdateTime ⟨true, false, 100, 1, 2000⟩ 4000 rfl

/-- A run that depletes the battery and then keeps reporting: connect, then
303 on-time ticks. 300 reports drain `batteryLevel` from 100 to 0; the three
following reports leave `updateCount` at 3, since the reset at the cadence
threshold is guarded by `batteryLevel > 0`. -/
def depletionEvents : List Event :=
  Event.connect :: tickEvents 2000 303

set_option maxRecDepth 40000

/-- C2: counterexample. The state reached from `initState` by
`depletionEvents` has `updateCount = 3`, outside `[0, decay_cadence)`, and
no decrement or reset happened when the counter reached the threshold
(`batteryLevel` is 0 and stays 0, `updateCount` is not reset). -/
theorem updateCount_escapes_range_after_depletion :
    (run initState depletionEvents).1.updateCount = 3 ∧
    (run initState depletionEvents).1.batteryLevel = 0 := by
  have e1 : depletionEvents =
      (Event.connect :: tickEvents 2000 60) ++ tickEvents 122000 243 := by
    show Event.connect :: tickEvents 2000 303 = _
    rw [List.cons_append, show (303 : Nat) = 243 + 60 from rfl, ← tickEvents_append]
  have g1 : (run initState depletionEvents).1 =
      (run (⟨true, true, 80, 0, 120000⟩ : FirmwareState) (tickEvents 122000 243)).1 := by
    rw [e1, run_fst_append,
      show (run initState (Event.connect :: tickEvents 2000 60)).1 =
        ⟨true, true, 80, 0, 120000⟩ from by decide]
  have g2 := runTicks_chunk ⟨true, true, 80, 0, 120000⟩ ⟨true, true, 60, 0, 240000⟩
    122000 60 183 243 242000 (by norm_num) (by norm_num) (by decide)
  have g3 := runTicks_chunk ⟨true, true, 60, 0, 240000⟩ ⟨true, true, 40, 0, 360000⟩
    242000 60 123 183 362000 (by norm_num) (by norm_num) (by decide)
  have g4 := runTicks_chunk ⟨true, true, 40, 0, 360000⟩ ⟨true, true, 20, 0, 480000⟩
    362000 60 63 123 482000 (by norm_num) (by norm_num) (by decide)
  have g5 := runTicks_chunk ⟨true, true, 20, 0, 480000⟩ ⟨true, true, 0, 0, 600000⟩
    482000 60 3 63 602000 (by norm_num) (by norm_num) (by decide)
  have g6 : (run (⟨true, true, 0, 0, 600000⟩ : FirmwareState)
      (tickEvents 602000 3)).1 = ⟨true, true, 0, 3, 606000⟩ := by decide
  rw [g1, g2, g3, g4, g5, g6]
  exact ⟨rfl, rfl⟩

/-- C2: amended. In every reachable state, `update_count` is non-negative,
and as long as `battery_level` is still positive it stays within
`[0, decay_cadence)`: it is reset to 0 when it reaches the threshold with a
positive battery, at which point `battery_level` decrements. Once
`battery_level` hits 0 the reset no longer fires and `update_count` grows
past the cadence. -/
theorem updateCount_bounded_while_battery_positive (es : List Event) :
    0 ≤ (run initState es).1.updateCount ∧
    (0 < (run initState es).1.batteryLevel →
      (run initState es).1.updateCount < 3) := by
  have hg := goodState_run es initState goodState_initState
  exact ⟨hg.2.2.1, fun h => by have := hg.2.2.2 h; omega⟩

/-- C2: witness for the amended theorem on a concrete run. -/
theorem updateCount_bounded_witness :
    (run initState [Event.connect, Event.tick 2000]).1.updateCount < 3 :=
  (updateCount_bounded_while_battery_positive [Event.connect, Event.tick 2000]).2
    (by decide)

/-- C3: confirmed. On a connected tick at time `now`: if at least
`UPDATE_INTERVAL` ms have elapsed since `lastUpdateTime` (wrapping 32-bit
subtraction), the iteration records `now`, increments `updateCount`, and —
exactly when the incremented counter has reached 3 and the battery is
positive — decrements `batteryLevel` and resets the counter; it then pushes
the formatted battery payload and sends one notification. If the interval
has not elapsed, battery, counter and timestamp are all unchanged and no
stack call is made. -/
theorem connected_tick_spec (s : FirmwareState) (now : Nat)
    (hc : s.deviceConnected = true) :
    (UPDATE_INTERVAL ≤ ulSub (now % ULONG_MOD) s.lastUpdateTime →
      (loopTick s now).1.lastUpdateTime = now % ULONG_MOD ∧
      (loopTick s now).1.updateCount =
        (if 3 ≤ s.updateCount + 1 ∧ 0 < s.batteryLevel then 0
         else s.updateCount + 1) ∧
      (loopTick s now).1.batteryLevel =
        (if 3 ≤ s.updateCount + 1 ∧ 0 < s.batteryLevel then s.batteryLevel - 1
         else s.batteryLevel) ∧
      (loopTick s now).2 =
        [Action.setValue (batteryPayload (loopTick s now).1), Action.notify,
         Action.serialPrint ("Battery level: " ++ batteryPayload (loopTick s now).1)]) ∧
    (ulSub (now % ULONG_MOD) s.lastUpdateTime < UPDATE_INTERVAL →
      (loopTick s now).1.lastUpdateTime = s.lastUpdateTime ∧
      (loopTick s now).1.updateCount = s.updateCount ∧
      (loopTick s now).1.batteryLevel = s.batteryLevel ∧
      (loopTick s now).2 = []) := by
  obtain ⟨c, o, b, u, l⟩ := s
  simp only [] at hc
  subst hc
  rw [loopTick_connected _ now rfl]
  constructor
  · intro h
    unfold sendBatteryUpdate reportedState applyDecay
    refine ⟨?_, ?_, ?_, ?_⟩ <;> simp [h] <;> (try split) <;> simp_all
  · intro h
    unfold sendBatteryUpdate
    simp [Nat.not_le.mpr h]

/-- C3: witness at a concrete connected state and tick time. -/
theorem connected_tick_spec_witness :
    ((UPDATE_INTERVAL ≤ ulSub (2000 % ULONG_MOD)
        (FirmwareState.mk true true 100 2 0).lastUpdateTime →
      (loopTick ⟨true, true, 100, 2, 0⟩ 2000).1.lastUpdateTime = 2000 % ULONG_MOD ∧
      (loopTick ⟨true, true, 100, 2, 0⟩ 2000).1.updateCount =
        (if 3 ≤ (FirmwareState.mk true true 100 2 0).updateCount + 1 ∧
            0 < (FirmwareState.mk true true 100 2 0).batteryLevel then 0
         else (FirmwareState.mk true true 100 2 0).updateCount + 1) ∧
      (loopTick ⟨true, true, 100, 2, 0⟩ 2000).1.batteryLevel =
        (if 3 ≤ (FirmwareState.mk true true 100 2 0).updateCount + 1 ∧
            0 < (FirmwareState.mk true true 100 2 0).batteryLevel then
          (FirmwareState.mk true true 100 2 0).batteryLevel - 1
         else (FirmwareState.mk true true 100 2 0).batteryLevel) ∧
      (loopTick ⟨true, true, 100, 2, 0⟩ 2000).2 =
        [Action.setValue (batteryPayload (loopTick ⟨true, true, 100, 2, 0⟩ 2000).1),
         Action.notify,
         Action.serialPrint ("Battery level: " ++
           batteryPayload (loopTick ⟨true, true, 100, 2, 0⟩ 2000).1)]) ∧
     (ulSub (2000 % ULONG_MOD) (FirmwareState.mk true true 100 2 0).lastUpdateTime <
        UPDATE_INTERVAL →
      (loopTick ⟨true, true, 100, 2, 0⟩ 2000).1.lastUpdateTime =
        (FirmwareState.mk true true 100 2 0).lastUpdateTime ∧
      (loopTick ⟨true, true, 100, 2, 0⟩ 2000).1.updateCount =
        (FirmwareState.mk true true 100 2 0).updateCount ∧
      (loopTick ⟨true, true, 100, 2, 0⟩ 2000).1.batteryLevel =
        (FirmwareState.mk true true 100 2 0).batteryLevel ∧
      (loopTick ⟨true, true, 100, 2, 0⟩ 2000).2 = [])) :=
  connected_tick_spec ⟨true, true, 100, 2, 0⟩ 2000 rfl

/-- C4: confirmed. Starting from the initial state (battery 100), along any
event sequence the battery level stays in `[0, 100]`, and extending the run
by any further events can only lower it (monotone non-increasing). -/
theorem battery_monotone_in_range (es fs : List Event) :
    0 ≤ (run initState es).1.batteryLevel ∧
    (run initState es).1.batteryLevel ≤ 100 ∧
    (run initState (es ++ fs)).1.batteryLevel ≤ (run initState es).1.batteryLevel := by
  have hg := goodState_run es initState goodState_initState
  refine ⟨hg.1, hg.2.1, ?_⟩
  rw [run_fst_append]
  exact batteryLevel_run_le fs _

/-- C5: confirmed. A poll-loop iteration in a state with
`deviceConnected = false` never calls `notify()`: the whole report block is
guarded by the connection flag, which no tick can change. -/
theorem no_notify_while_disconnected (s : FirmwareState) (now : Nat)
    (hc : s.deviceConnected = false) :
    notifyCount (loopTick s now).2 = 0 ∧ Action.notify ∉ (loopTick s now).2 := by
  cases ho : s.oldDeviceConnected with
  | false =>
    rw [loopTick_idle s now hc ho]
    simp [notifyCount]
  | true =>
    rw [loopTick_disconnectEdge s now hc ho]
    simp [notifyCount]

/-- C5: witness at a concrete disconnected state. -/
theorem no_notify_while_disconnected_witness :
    notifyCount (loopTick ⟨false, true, 42, 1, 9999⟩ 123456).2 = 0 ∧
    Action.notify ∉ (loopTick ⟨false, true, 42, 1, 9999⟩ 123456).2 :=
  no_notify_while_disconnected ⟨false, true, 42, 1, 9999⟩ 123456 rfl

/-- C6: confirmed. On a disconnect edge the iteration emits the 500 ms
settle delay followed by exactly one advertising restart, and as long as no
connect callback arrives afterwards, the remainder of the run emits no
further restart: exactly one restart per disconnect edge. -/
theorem disconnect_edge_single_restart (s : FirmwareState) (now : Nat)
    (es : List Event) (hc : s.deviceConnected = false)
    (ho : s.oldDeviceConnected = true) (hes : Event.connect ∉ es) :
    (loopTick s now).2 =
      [Action.delayMs 500, Action.restartAdvertising,
       Action.serialPrint "Restarted advertising"] ∧
    restartCount (run s (Event.tick now :: es)).2 = 1 := by
  have htick := loopTick_disconnectEdge s now hc ho
  refine ⟨by rw [htick], ?_⟩
  rw [run_cons, restartCount_append,
    show step s (Event.tick now) = loopTick s now from rfl, htick]
  have hrest : restartCount
      (run ({ s with oldDeviceConnected := false } : FirmwareState) es).2 = 0 :=
    run_no_restart es _ hc rfl hes
  simp [restartCount, hrest]

/-- C6: witness at a concrete disconnect edge followed by connect-free events. -/
theorem disconnect_edge_single_restart_witness :
    ((loopTick ⟨false, true, 50, 1, 7000⟩ 7500).2 =
      [Action.delayMs 500, Action.restartAdvertising,
       Action.serialPrint "Restarted advertising"] ∧
     restartCount (run ⟨false, true, 50, 1, 7000⟩
       (Event.tick 7500 :: [Event.tick 8000, Event.disconnect,
         Event.write "cmd", Event.tick 9000])).2 = 1) :=
  disconnect_edge_single_restart ⟨false, true, 50, 1, 7000⟩ 7500
    [Event.tick 8000, Event.disconnect, Event.write "cmd", Event.tick 9000]
    rfl rfl (by decide)

/-- The end-to-end scenario: connect at t = 0, ticks every 2000 ms up to
12000 ms. -/
def scenarioEvents : List Event :=
  [Event.connect, Event.tick 2000, Event.tick 4000, Event.tick 6000,
   Event.tick 8000, Event.tick 10000, Event.tick 12000]

/-- C7: confirmed. In the end-to-end scenario each of the six on-time ticks
triggers exactly one report, the emitted payload sequence is
`"100%", "100%", "99%", "99%", "99%", "98%"`, and after the six reports the
battery has dropped by exactly 2 from its starting value. -/
theorem end_to_end_scenario :
    emittedValues (run initState scenarioEvents).2 =
      ["100%", "100%", "99%", "99%", "99%", "98%"] ∧
    notifyCount (run initState scenarioEvents).2 = 6 ∧
    (run initState scenarioEvents).1.batteryLevel =
      initState.batteryLevel - 2 := by
  decide

/-- C8: confirmed. The scheduler is deterministic: any two executions of the
transition relation over the same tick timestamps and the same
connect/disconnect/write history from the initial state end in the same
state and emit the same sequence of battery values. -/
theorem run_deterministic (es : List Event) (s1 s2 : FirmwareState)
    (a1 a2 : List Action) (h1 : RunRel initState es s1 a1)
    (h2 : RunRel initState es s2 a2) :
    emittedValues a1 = emittedValues a2 ∧ s1 = s2 := by
  have e1 := runRel_eq es initState s1 a1 h1
  have e2 := runRel_eq es initState s2 a2 h2
  rw [e1] at e2
  obtain ⟨hs, ha⟩ := Prod.mk.injEq .. ▸ e2
  exact ⟨by rw [ha], hs⟩

/-- C8: witness. Two derivations of the relation for the history
connect-then-tick-at-2000 yield equal emissions and equal final states. -/
theorem run_deterministic_witness :
    (emittedValues ([Action.serialPrint "Device connected",
        Action.updateConnParams 24 48 0 400] ++
      (([] ++ [Action.setValue "100%", Action.notify,
        Action.serialPrint "Battery level: 100%"]) ++ [])) =
      emittedValues ([Action.serialPrint "Device connected",
        Action.updateConnParams 24 48 0 400] ++
      (([] ++ [Action.setValue "100%", Action.notify,
        Action.serialPrint "Battery level: 100%"]) ++ [])) ∧
     (⟨true, true, 100, 1, 2000⟩ : FirmwareState) = ⟨true, true, 100, 1, 2000⟩) :=
  run_deterministic [Event.connect, Event.tick 2000] _ _ _ _
    (RunRel.cons (StepRel.connect initState)
      (RunRel.cons
        (StepRel.tick (TickRel.mk (EdgeRel.connectEdge rfl rfl)
          (ReportRel.emit rfl (by decide))))
        (RunRel.nil _)))
    (RunRel.cons (StepRel.connect initState)
      (RunRel.cons
        (StepRel.tick (TickRel.mk (EdgeRel.connectEdge rfl rfl)
          (ReportRel.emit rfl (by decide))))
        (RunRel.nil _)))

/-- C9: confirmed. A write callback with a zero-length payload is a no-op:
battery level, update counter and both connection flags are unchanged, and
nothing is even logged. -/
theorem onWrite_empty_noop (s : FirmwareState) :
    (onWrite s "").1.batteryLevel = s.batteryLevel ∧
    (onWrite s "").1.updateCount = s.updateCount ∧
    (onWrite s "").1.deviceConnected = s.deviceConnected ∧
    (onWrite s "").1.oldDeviceConnected = s.oldDeviceConnected ∧
    (onWrite s "").2 = [] :=
  ⟨rfl, rfl, rfl, rfl, rfl⟩

/-- C10: confirmed. For a write of any payload whatsoever, the write
callback leaves every firmware state field unchanged — it only observes and
logs the payload. -/
theorem onWrite_frame (s : FirmwareState) (v : String) :
    (onWrite s v).1.batteryLevel = s.batteryLevel ∧
    (onWrite s v).1.updateCount = s.updateCount ∧
    (onWrite s v).1.lastUpdateTime = s.lastUpdateTime ∧
    (onWrite s v).1.deviceConnected = s.deviceConnected ∧
    (onWrite s v).1.oldDeviceConnected = s.oldDeviceConnected :=
  ⟨rfl, rfl, rfl, rfl, rfl⟩

end CarTag
